import Mathlib

/-!
# The `ibm_is_subnet` data source: `subnetGetByNameOrID`

A shallow embedding of `data_source_ibm_is_subnet.go` (package `vpc` of the vendored
IBM Cloud provider).  The read function resolves a subnet either by a point fetch on
its identifier or by a paginated scan for its name, and then copies the record into
the resource data of the host framework.

Collaborators that live outside the file (the VPC client, `flex.GetNext`,
`flex.GetBaseController`, `flex.GetGlobalTagsUsingCRN`) are parameters of the model,
bundled in `Meta`.  A Go call returning `(result, err)` is a function into `Except`.
The resource data `d` is threaded explicitly.  The `for` loop of the scan takes a
fuel argument, one unit per list request.
-/

set_option autoImplicit false

namespace IBMISSubnet

/-! ## Data model -/

/-- The text of a Go `error`, as rendered by the verb `%s`. -/
abbrev Error := String

/-- The text of a `*core.DetailedResponse`, as rendered by the verb `%s`. -/
abbrev Response := String

/-- The type `vpcv1.NetworkACLReference`, restricted to the field the file reads. -/
structure NetworkACLReference where
  ID : String
  deriving DecidableEq, Repr

/-- The type `vpcv1.PublicGatewayReference`, restricted to the field the file reads. -/
structure PublicGatewayReference where
  ID : String
  deriving DecidableEq, Repr

/-- The type `vpcv1.ZoneReference`, restricted to the field the file reads. -/
structure ZoneReference where
  Name : String
  deriving DecidableEq, Repr

/-- The type `vpcv1.VPCReference`, restricted to the fields the file reads. -/
structure VPCReference where
  ID : String
  Name : String
  deriving DecidableEq, Repr

/-- The type `vpcv1.ResourceGroupReference`, restricted to the fields the file reads. -/
structure ResourceGroupReference where
  ID : String
  Name : String
  deriving DecidableEq, Repr

/-- The type `vpcv1.Subnet`, restricted to the fields the file reads.  The three references the
file tests against `nil` are options; the fields it dereferences without a test are
plain values. -/
structure Subnet where
  ID : String
  Name : String
  Ipv4CIDRBlock : String
  AvailableIpv4AddressCount : Int
  TotalIpv4AddressCount : Int
  NetworkACL : Option NetworkACLReference
  PublicGateway : Option PublicGatewayReference
  Status : String
  Zone : ZoneReference
  VPC : VPCReference
  CRN : String
  ResourceGroup : Option ResourceGroupReference
  deriving DecidableEq, Repr

/-- The type `vpcv1.SubnetCollection`: one page of records and the link to the next page
(`none` is the `nil` link, `some href` a link with that address). -/
structure SubnetCollection where
  Subnets : List Subnet
  Next : Option String
  deriving DecidableEq, Repr

/-- The type `vpcv1.ListSubnetsOptions`, restricted to the pagination cursor, the only field the
file ever assigns. -/
structure ListSubnetsOptions where
  Start : Option String
  deriving DecidableEq, Repr

/-- The requests sent to the VPC service. -/
inductive Request where
  | GetSubnet (ID : String)
  | ListSubnets (options : ListSubnetsOptions)
  deriving DecidableEq, Repr

/-- The two tag kinds passed to `flex.GetGlobalTagsUsingCRN`. -/
inductive TagType where
  | isUserTagType
  | isAccessTagType
  deriving DecidableEq, Repr

/-- The VPC client `sess`: the two service calls the file makes.  A call either returns
a result, or fails with the error and the transport response that the Go call returns
next to it.  The result of `GetSubnet` is the pointer `*vpcv1.Subnet`, which the file
stores without a test: `none` is a `nil` pointer returned without an error. -/
structure VpcV1 where
  GetSubnet : String → Except (Error × Response) (Option Subnet)
  ListSubnets : ListSubnetsOptions → Except (Error × Response) SubnetCollection

/-- The provider handle `meta` together with the helpers of package `flex` that the
file calls on it. -/
structure Meta where
  vpcClient : Except Error VpcV1
  GetNext : Option String → String
  GetBaseController : Except Error String
  GetGlobalTagsUsingCRN : String → TagType → Except Error (List String)

/-! ## Resource data -/

/-- The keys of the schema declared by `DataSourceIBMISSubnet`, under the names of the
Go constants.  They are the keys of one Go map literal, hence pairwise distinct. -/
inductive Key where
  | identifier
  | isSubnetIpv4CidrBlock
  | isSubnetAvailableIpv4AddressCount
  | isSubnetTotalIpv4AddressCount
  | isSubnetName
  | isSubnetTags
  | isSubnetAccessTags
  | isSubnetCRN
  | isSubnetNetworkACL
  | isSubnetPublicGateway
  | isSubnetStatus
  | isSubnetVPC
  | isSubnetVPCName
  | isSubnetZone
  | isSubnetResourceGroup
  | ResourceControllerURL
  | ResourceName
  | ResourceCRN
  | ResourceStatus
  | ResourceGroupName
  deriving DecidableEq, Repr

/-- A value held by a schema field: `TypeString`, `TypeInt` or `TypeSet` of strings. -/
inductive Value where
  | str (s : String)
  | int (i : Int)
  | set (elems : List String)
  deriving DecidableEq, Repr

/-- Modelled from the spec: `*schema.ResourceData` belongs to the host framework, not to
the file; it is the generic key/value store that holds the resource id and the value of
every declared field, `none` for a field that is unset. -/
structure ResourceData where
  id : String
  fields : Key → Option Value

/-- Modelled from the spec: `d.SetId(v)` of the host framework, which records the id. -/
def ResourceData.SetId (d : ResourceData) (v : String) : ResourceData :=
  { d with id := v }

/-- Modelled from the spec: `d.Set(key, value)` of the host framework, which records the
value of one field and leaves the others alone; the value `none` is the Go `nil`, which
leaves the field explicitly cleared, that is unset. -/
def ResourceData.Set (d : ResourceData) (key : Key) (value : Option Value) : ResourceData :=
  { d with fields := fun k => if k = key then value else d.fields k }

/-- The zero value of each field type: the empty string, the integer zero, the empty
set. -/
def Value.isZero : Value → Bool
  | .str s => s == ""
  | .int i => i == 0
  | .set elems => elems.isEmpty

/-- Modelled from the spec: `d.GetOk(key)` of the host framework, which reports a key as
set only when it holds a non-zero value, so that an empty identifier or name counts as
not supplied. -/
def ResourceData.GetOk (d : ResourceData) (key : Key) : Option Value :=
  match d.fields key with
  | some v => if v.isZero then none else some v
  | none => none

/-- The flag `Optional` of each key in the schema of `DataSourceIBMISSubnet`: set for
`identifier` and for the name, for no other key. -/
def Key.Optional : Key → Bool
  | .identifier => true
  | .isSubnetName => true
  | _ => false

/-- The flag `Computed` of each key in the schema of `DataSourceIBMISSubnet`: set for
every key but `identifier`. -/
def Key.Computed : Key → Bool
  | .identifier => false
  | _ => true

/-- Modelled from the spec: the host framework, which is not part of the file, calls the
read function of a data source on a state built from the configuration alone (the record
"is fetched fresh on every invocation", each invocation is "stateless between calls"),
so that a key that is not `Optional` cannot be configured and is unset in that state. -/
def ReadInput (d : ResourceData) : Prop :=
  ∀ k : Key, k.Optional = false → d.fields k = none

/-! ## Messages -/

/-- The error `fmt.Errorf("[ERROR] Error Getting Subnet (%s): %s\n%s", id, err, response)`. -/
def errGettingSubnet (id : String) (err : Error) (response : Response) : Error :=
  "[ERROR] Error Getting Subnet (" ++ id ++ "): " ++ err ++ "\n" ++ response

/-- The error `fmt.Errorf("[ERROR] Error Fetching subnets List %s\n%s", err, response)`. -/
def errFetchingList (err : Error) (response : Response) : Error :=
  "[ERROR] Error Fetching subnets List " ++ err ++ "\n" ++ response

/-- The error `fmt.Errorf("[ERROR] No subnet found with name (%s)", name)`. -/
def errNoSubnet (name : String) : Error :=
  "[ERROR] No subnet found with name (" ++ name ++ ")"

/-- The line logged when the plain tags cannot be read. -/
def logTags (id : String) (err : Error) : String :=
  "An error occured during reading of subnet (" ++ id ++ ") tags : " ++ err

/-- The line logged when the access tags cannot be read. -/
def logAccessTags (id : String) (err : Error) : String :=
  "Error on get of resource subnet (" ++ id ++ ") access tags: " ++ err

/-! ## The lookup phase (lines 168 to 213) -/

/-- How the pagination loop ends. -/
inductive Scan where
  | done (allrecs : List Subnet)
  | failed (err : Error)
  | outOfFuel
  deriving DecidableEq, Repr

/-- The options of the next list request: the top of the loop body assigns the cursor
only when `start` is not empty.  The Go field holds the address of `start`, whose value
does not change between this assignment and the request. -/
def nextOptions (start : String) (options : ListSubnetsOptions) : ListSubnetsOptions :=
  if start ≠ "" then { options with Start := some start } else options

/-- The `for` loop of lines 189 to 202, from the state `(start, allrecs, options)`.
Returns how the loop ends and the list requests it sent, in order. -/
def listLoop (sess : VpcV1) (GetNext : Option String → String) :
    Nat → String → List Subnet → ListSubnetsOptions → Scan × List Request
  | 0, _, _, _ => (.outOfFuel, [])
  | fuel + 1, start, allrecs, options =>
    let options := nextOptions start options
    match sess.ListSubnets options with
    | .error (err, response) => (.failed (errFetchingList err response), [.ListSubnets options])
    | .ok subnetsCollection =>
      let start := GetNext subnetsCollection.Next
      let allrecs := allrecs ++ subnetsCollection.Subnets
      if start = "" then (.done allrecs, [.ListSubnets options])
      else
        let rest := listLoop sess GetNext fuel start allrecs options
        (rest.1, .ListSubnets options :: rest.2)

/-- The `range` loop of lines 204 to 209: the first record with the given name. -/
def findByName (name : String) : List Subnet → Option Subnet
  | [] => none
  | subnetInfo :: rest => if subnetInfo.Name = name then some subnetInfo else findByName name rest

/-- How the lookup phase ends. -/
inductive Lookup where
  /-- Control reaches line 215 with this value of the pointer `subnet`. -/
  | resolved (subnet : Option Subnet)
  /-- The function returned this error. -/
  | failed (err : Error)
  /-- A type assertion `v.(string)` failed. -/
  | typeAssert
  /-- The pagination loop did not end within the fuel. -/
  | outOfFuel
  deriving DecidableEq, Repr

/-- Lines 168 to 213: how the lookup ends and the requests it sent to the VPC service. -/
def lookup (m : Meta) (fuel : Nat) (d : ResourceData) : Lookup × List Request :=
  match m.vpcClient with
  | .error err => (.failed err, [])
  | .ok sess =>
    match d.GetOk .identifier with
    | some (.str id) =>
      match sess.GetSubnet id with
      | .error (err, response) => (.failed (errGettingSubnet id err response), [.GetSubnet id])
      | .ok subnetinfo => (.resolved subnetinfo, [.GetSubnet id])
    | some _ => (.typeAssert, [])
    | none =>
      match d.GetOk .isSubnetName with
      | some (.str name) =>
        match listLoop sess m.GetNext fuel "" [] { Start := none } with
        | (.failed err, reqs) => (.failed err, reqs)
        | (.outOfFuel, reqs) => (.outOfFuel, reqs)
        | (.done allrecs, reqs) =>
          match findByName name allrecs with
          | some subnet => (.resolved (some subnet), reqs)
          | none => (.failed (errNoSubnet name), reqs)
      | some _ => (.typeAssert, [])
      | none => (.resolved none, [])

/-! ## The mapping phase (lines 215 to 261) -/

/-- How a call of `subnetGetByNameOrID` ends, with the resource data at that point. -/
inductive Outcome where
  /-- The call returned `nil`. -/
  | success (d : ResourceData)
  /-- The call returned this error. -/
  | failure (err : Error) (d : ResourceData)
  /-- The call dereferenced the `nil` pointer `subnet` at line 215. -/
  | nilDeref (d : ResourceData)
  /-- A type assertion `v.(string)` failed. -/
  | typeAssert (d : ResourceData)
  /-- The pagination loop did not end within the fuel. -/
  | outOfFuel

/-- What a call does: how it ends, the requests sent to the VPC service and the lines
written to the log. -/
structure Result where
  outcome : Outcome
  requests : List Request
  log : List String

/-- Modelled from the spec: `flex.GetGlobalTagsUsingCRN` is not part of the file; when it
fails it returns no set next to its error, and the state store records the missing set
as a set without elements ("the corresponding output field is simply left empty").
This is the value written for a tag field from the result of the tag fetch. -/
def tagsValue : Except Error (List String) → Value
  | .ok tags => .set tags
  | .error _ => .set []

/-- The log line, if any, for the result of a tag fetch. -/
def tagsLog (line : Error → String) : Except Error (List String) → List String
  | .ok _ => []
  | .error err => [line err]

/-- Lines 215 to 232: the fields written before the base controller is looked up. -/
def setSubnetFields (d : ResourceData) (subnet : Subnet) : ResourceData :=
  let d := d.SetId subnet.ID
  let d := d.Set .isSubnetName (some (.str subnet.Name))
  let d := d.Set .isSubnetIpv4CidrBlock (some (.str subnet.Ipv4CIDRBlock))
  let d := d.Set .isSubnetAvailableIpv4AddressCount (some (.int subnet.AvailableIpv4AddressCount))
  let d := d.Set .isSubnetTotalIpv4AddressCount (some (.int subnet.TotalIpv4AddressCount))
  let d := match subnet.NetworkACL with
    | some acl => d.Set .isSubnetNetworkACL (some (.str acl.ID))
    | none => d
  let d := match subnet.PublicGateway with
    | some gateway => d.Set .isSubnetPublicGateway (some (.str gateway.ID))
    | none => d.Set .isSubnetPublicGateway none
  let d := d.Set .isSubnetStatus (some (.str subnet.Status))
  let d := d.Set .isSubnetZone (some (.str subnet.Zone.Name))
  let d := d.Set .isSubnetVPC (some (.str subnet.VPC.ID))
  d.Set .isSubnetVPCName (some (.str subnet.VPC.Name))

/-- Lines 250 to 260: the fields written after the tag fetches. -/
def setResourceFields (d : ResourceData) (subnet : Subnet) (controller : String)
    (tags accesstags : Except Error (List String)) : ResourceData :=
  let d := d.Set .isSubnetTags (some (tagsValue tags))
  let d := d.Set .isSubnetAccessTags (some (tagsValue accesstags))
  let d := d.Set .isSubnetCRN (some (.str subnet.CRN))
  let d := d.Set .ResourceControllerURL (some (.str (controller ++ "/vpc-ext/network/subnets")))
  let d := d.Set .ResourceName (some (.str subnet.Name))
  let d := d.Set .ResourceCRN (some (.str subnet.CRN))
  let d := d.Set .ResourceStatus (some (.str subnet.Status))
  match subnet.ResourceGroup with
  | some group =>
    let d := d.Set .isSubnetResourceGroup (some (.str group.ID))
    d.Set .ResourceGroupName (some (.str group.Name))
  | none => d

/-- Lines 215 to 261 for a non-nil `subnet`: how the call ends and the lines logged. -/
def mapping (m : Meta) (d : ResourceData) (subnet : Subnet) : Outcome × List String :=
  let d := setSubnetFields d subnet
  match m.GetBaseController with
  | .error err => (.failure err d, [])
  | .ok controller =>
    let tags := m.GetGlobalTagsUsingCRN subnet.CRN .isUserTagType
    let accesstags := m.GetGlobalTagsUsingCRN subnet.CRN .isAccessTagType
    (.success (setResourceFields d subnet controller tags accesstags),
      tagsLog (logTags d.id) tags ++ tagsLog (logAccessTags d.id) accesstags)

/-- The function `subnetGetByNameOrID(d, meta)`. -/
def subnetGetByNameOrID (m : Meta) (fuel : Nat) (d : ResourceData) : Result :=
  match lookup m fuel d with
  | (.failed err, reqs) => ⟨.failure err d, reqs, []⟩
  | (.typeAssert, reqs) => ⟨.typeAssert d, reqs, []⟩
  | (.outOfFuel, reqs) => ⟨.outOfFuel, reqs, []⟩
  | (.resolved none, reqs) => ⟨.nilDeref d, reqs, []⟩
  | (.resolved (some subnet), reqs) =>
    let r := mapping m d subnet
    ⟨r.1, reqs, r.2⟩

/-- The function `dataSourceIBMISSubnetRead(d, meta)`: it returns what
`subnetGetByNameOrID` returns. -/
def dataSourceIBMISSubnetRead (m : Meta) (fuel : Nat) (d : ResourceData) : Result :=
  subnetGetByNameOrID m fuel d

/-! ## Paged stores and observations -/

/-- The state of the resource data when the call ends, if it ends. -/
def Outcome.state : Outcome → Option ResourceData
  | .success d => some d
  | .failure _ d => some d
  | .nilDeref d => some d
  | .typeAssert d => some d
  | .outOfFuel => none

/-- The records of a sequence of pages, in page order then in-page order. -/
def allRecords : List SubnetCollection → List Subnet
  | [] => []
  | page :: rest => page.Subnets ++ allRecords rest

/-- The list service answers the request `options` with the first of `pages`, the next
link of every page but the last parses to a non-empty cursor, the request carrying that
cursor is answered with the following page, and the next link of the last page parses to
the empty cursor. -/
def PageChain (sess : VpcV1) (GetNext : Option String → String) :
    ListSubnetsOptions → List SubnetCollection → Prop
  | _, [] => False
  | options, [page] => sess.ListSubnets options = .ok page ∧ GetNext page.Next = ""
  | options, page :: next :: rest =>
    sess.ListSubnets options = .ok page ∧ GetNext page.Next ≠ "" ∧
      PageChain sess GetNext { Start := some (GetNext page.Next) } (next :: rest)

/-- The list service answers the request `options` and its successors with `pages`, each
with a next link that parses to a non-empty cursor, and then fails with `cause`. -/
def FailChain (sess : VpcV1) (GetNext : Option String → String) :
    ListSubnetsOptions → List SubnetCollection → Error × Response → Prop
  | options, [], cause => sess.ListSubnets options = .error cause
  | options, page :: rest, cause =>
    sess.ListSubnets options = .ok page ∧ GetNext page.Next ≠ "" ∧
      FailChain sess GetNext { Start := some (GetNext page.Next) } rest cause

/-- The list requests that walk `pages` from the request `options`: one per page, each
after the first carrying the cursor parsed from the next link of the page before. -/
def requestsFrom (GetNext : Option String → String) :
    ListSubnetsOptions → List SubnetCollection → List Request
  | _, [] => []
  | options, page :: rest =>
    .ListSubnets options :: requestsFrom GetNext { Start := some (GetNext page.Next) } rest

/-- The list requests of a scan that walks `pages`: the first carries no cursor. -/
def pageRequests (GetNext : Option String → String) (pages : List SubnetCollection) :
    List Request :=
  requestsFrom GetNext { Start := none } pages

/-- The list requests of a scan that walks `pages` and then sends one more request. -/
def failRequests (GetNext : Option String → String) :
    ListSubnetsOptions → List SubnetCollection → List Request
  | options, [] => [.ListSubnets options]
  | options, page :: rest =>
    .ListSubnets options :: failRequests GetNext { Start := some (GetNext page.Next) } rest

/-! ## A sample store -/

/-- A subnet named `web` without a public gateway. -/
def subnetWeb : Subnet :=
  { ID := "0717-a1", Name := "web", Ipv4CIDRBlock := "10.240.0.0/24",
    AvailableIpv4AddressCount := 251, TotalIpv4AddressCount := 256,
    NetworkACL := some ⟨"acl-1"⟩, PublicGateway := none, Status := "available",
    Zone := ⟨"us-south-1"⟩, VPC := ⟨"vpc-1", "main"⟩, CRN := "crn:subnet:a1",
    ResourceGroup := some ⟨"rg-1", "default"⟩ }

/-- A subnet named `db` with a public gateway. -/
def subnetDb : Subnet :=
  { subnetWeb with ID := "0717-b2", Name := "db", Ipv4CIDRBlock := "10.240.1.0/24",
                   PublicGateway := some ⟨"pgw-1"⟩, CRN := "crn:subnet:b2" }

/-- A second subnet named `web`, listed after `subnetWeb`. -/
def subnetWeb2 : Subnet :=
  { subnetWeb with ID := "0717-c3", Ipv4CIDRBlock := "10.240.2.0/24", CRN := "crn:subnet:c3" }

/-- A subnet without network ACL, public gateway and resource group. -/
def subnetBare : Subnet :=
  { subnetWeb with ID := "0717-d4", Name := "bare", NetworkACL := none, PublicGateway := none,
                   ResourceGroup := none, CRN := "crn:subnet:d4" }

/-- The first page of the sample store, with a link to the second. -/
def page1 : SubnetCollection :=
  { Subnets := [subnetDb, subnetWeb], Next := some "/v1/subnets?start=p2" }

/-- The second and last page of the sample store. -/
def page2 : SubnetCollection :=
  { Subnets := [subnetWeb2, subnetBare], Next := none }

/-- The records of the sample store on one page. -/
def pageAll : SubnetCollection :=
  { Subnets := [subnetDb, subnetWeb, subnetWeb2, subnetBare], Next := none }

/-- A parser of next links for the sample store. -/
def sampleGetNext : Option String → String
  | none => ""
  | some href => if href = "/v1/subnets?start=p2" then "p2" else ""

/-- A client of the sample store split into two pages. -/
def sampleSess : VpcV1 :=
  { GetSubnet := fun id =>
      if id = "0717-a1" then .ok (some subnetWeb)
      else if id = "0717-d4" then .ok (some subnetBare)
      else .error ("Subnet not found", "404 Not Found"),
    ListSubnets := fun options =>
      match options.Start with
      | none => .ok page1
      | some start => if start = "p2" then .ok page2 else .error ("bad cursor", "400 Bad Request") }

/-- A client of the sample store on a single page. -/
def sampleSessOnePage : VpcV1 :=
  { sampleSess with ListSubnets := fun _ => .ok pageAll }

/-- A client whose second page request fails. -/
def sampleSessBroken : VpcV1 :=
  { sampleSess with ListSubnets := fun options =>
      match options.Start with
      | none => .ok page1
      | some _ => .error ("timeout", "503 Service Unavailable") }

/-- A provider handle on the sample store where every helper succeeds. -/
def sampleMeta : Meta :=
  { vpcClient := .ok sampleSess, GetNext := sampleGetNext,
    GetBaseController := .ok "https://cloud.ibm.com",
    GetGlobalTagsUsingCRN := fun _ tagType =>
      match tagType with
      | .isUserTagType => .ok ["env:dev"]
      | .isAccessTagType => .ok ["project:x"] }

/-- Resource data with only the identifier set. -/
def byIdentifier (id : String) : ResourceData :=
  { id := "", fields := fun k => if k = .identifier then some (.str id) else none }

/-- Resource data with only the name set. -/
def byName (name : String) : ResourceData :=
  { id := "", fields := fun k => if k = .isSubnetName then some (.str name) else none }

/-- A provider handle on a store whose second page request fails. -/
def sampleMetaBroken : Meta :=
  { sampleMeta with vpcClient := .ok sampleSessBroken }

/-- A provider handle on the sample store where both tag fetches fail. -/
def sampleMetaNoTags : Meta :=
  { sampleMeta with GetGlobalTagsUsingCRN := fun _ _ => .error "tagging service unavailable" }

/-- A client whose point fetch returns a `nil` record without an error. -/
def sampleSessNil : VpcV1 :=
  { sampleSess with GetSubnet := fun _ => .ok none }

/-- A provider handle on the client whose point fetch returns a `nil` record. -/
def sampleMetaNil : Meta :=
  { sampleMeta with vpcClient := .ok sampleSessNil }

/-- A provider handle for which no VPC client can be built. -/
def sampleMetaNoClient : Meta :=
  { sampleMeta with vpcClient := .error "no VPC session" }

/-- A provider handle on the sample store whose base controller lookup fails. -/
def sampleMetaNoController : Meta :=
  { sampleMeta with GetBaseController := .error "user details unavailable" }

/-- Resource data in which no field is set. -/
def emptyData : ResourceData :=
  { id := "", fields := fun _ => none }

/-! ## The pagination loop -/

theorem nextOptions_empty (options : ListSubnetsOptions) : nextOptions "" options = options := by
  simp [nextOptions]

theorem nextOptions_cursor (start : String) (options : ListSubnetsOptions) (h : start ≠ "") :
    nextOptions start options = { Start := some start } := by
  simp [nextOptions, h]

theorem requestsFrom_length (GetNext : Option String → String) :
    ∀ (pages : List SubnetCollection) (options : ListSubnetsOptions),
      (requestsFrom GetNext options pages).length = pages.length
  | [], _ => rfl
  | _ :: rest, _ => by simp [requestsFrom, requestsFrom_length GetNext rest]

theorem failRequests_length (GetNext : Option String → String) :
    ∀ (pages : List SubnetCollection) (options : ListSubnetsOptions),
      (failRequests GetNext options pages).length = pages.length + 1
  | [], _ => rfl
  | _ :: rest, _ => by simp [failRequests, failRequests_length GetNext rest]

/-- Along a chain of pages the loop ends with the records of all pages appended to the
accumulator, after one request per page. -/
theorem listLoop_pageChain (sess : VpcV1) (GetNext : Option String → String) :
    ∀ (pages : List SubnetCollection) (fuel : Nat) (start : String) (allrecs : List Subnet)
      (options : ListSubnetsOptions),
      PageChain sess GetNext (nextOptions start options) pages → pages.length ≤ fuel →
      listLoop sess GetNext fuel start allrecs options =
        (.done (allrecs ++ allRecords pages),
          requestsFrom GetNext (nextOptions start options) pages) := by
  intro pages
  induction pages with
  | nil => intro fuel start allrecs options h; exact absurd h (by simp [PageChain])
  | cons page rest ih =>
    intro fuel start allrecs options h hfuel
    cases fuel with
    | zero => simp at hfuel
    | succ fuel =>
      cases rest with
      | nil =>
        obtain ⟨hreq, hnext⟩ := h
        simp [listLoop, hreq, hnext, allRecords, requestsFrom]
      | cons next rest =>
        obtain ⟨hreq, hnext, hrest⟩ := h
        have hlen : (next :: rest).length ≤ fuel := by
          simp only [List.length_cons] at hfuel ⊢; omega
        have hopt := nextOptions_cursor (GetNext page.Next) (nextOptions start options) hnext
        have := ih fuel (GetNext page.Next) (allrecs ++ page.Subnets)
          (nextOptions start options) (by rw [hopt]; exact hrest) hlen
        simp only [listLoop, hreq, hnext, if_false, this, hopt]
        simp [allRecords, requestsFrom]

/-- Along a chain of pages that ends in a failed request the loop fails with the message
built from the cause, after one request per page and the failed one. -/
theorem listLoop_failChain (sess : VpcV1) (GetNext : Option String → String)
    (cause : Error × Response) :
    ∀ (pages : List SubnetCollection) (fuel : Nat) (start : String) (allrecs : List Subnet)
      (options : ListSubnetsOptions),
      FailChain sess GetNext (nextOptions start options) pages cause → pages.length < fuel →
      listLoop sess GetNext fuel start allrecs options =
        (.failed (errFetchingList cause.1 cause.2),
          failRequests GetNext (nextOptions start options) pages) := by
  intro pages
  induction pages with
  | nil =>
    intro fuel start allrecs options h hfuel
    cases fuel with
    | zero => simp at hfuel
    | succ fuel =>
      have hreq : sess.ListSubnets (nextOptions start options) = .error cause := h
      simp [listLoop, hreq, failRequests]
  | cons page rest ih =>
    intro fuel start allrecs options h hfuel
    cases fuel with
    | zero => simp at hfuel
    | succ fuel =>
      obtain ⟨hreq, hnext, hrest⟩ := h
      have hlen : rest.length < fuel := by
        simp only [List.length_cons] at hfuel; omega
      have hopt := nextOptions_cursor (GetNext page.Next) (nextOptions start options) hnext
      have := ih fuel (GetNext page.Next) (allrecs ++ page.Subnets)
        (nextOptions start options) (by rw [hopt]; exact hrest) hlen
      simp only [listLoop, hreq, hnext, if_false, this, hopt]
      simp [failRequests]

/-- The search returns the first record with the name: no record before it has it. -/
theorem findByName_eq_some (name : String) :
    ∀ (recs : List Subnet) (rec : Subnet), findByName name recs = some rec →
      ∃ pre post, recs = pre ++ rec :: post ∧ rec.Name = name ∧ ∀ r ∈ pre, r.Name ≠ name
  | [], _, h => by simp [findByName] at h
  | r :: rest, rec, h => by
    by_cases hr : r.Name = name
    · simp [findByName, hr] at h
      subst h
      exact ⟨[], rest, rfl, hr, by simp⟩
    · simp [findByName, hr] at h
      obtain ⟨pre, post, hrecs, hname, hpre⟩ := findByName_eq_some name rest rec h
      refine ⟨r :: pre, post, by simp [hrecs], hname, ?_⟩
      intro x hx
      rcases List.mem_cons.mp hx with rfl | hx
      · exact hr
      · exact hpre x hx

theorem findByName_eq_none (name : String) :
    ∀ (recs : List Subnet), (∀ r ∈ recs, r.Name ≠ name) → findByName name recs = none
  | [], _ => rfl
  | r :: rest, h => by
    have hr : r.Name ≠ name := h r (List.mem_cons_self _ _)
    simp [findByName, hr]
    exact findByName_eq_none name rest (fun x hx => h x (List.mem_cons_of_mem _ hx))

theorem findByName_isSome (name : String) :
    ∀ (recs : List Subnet), (∃ r ∈ recs, r.Name = name) → ∃ rec, findByName name recs = some rec
  | [], h => by simp at h
  | r :: rest, h => by
    by_cases hr : r.Name = name
    · exact ⟨r, by simp [findByName, hr]⟩
    · obtain ⟨x, hx, hxn⟩ := h
      rcases List.mem_cons.mp hx with rfl | hx
      · exact absurd hxn hr
      · obtain ⟨rec, hrec⟩ := findByName_isSome name rest ⟨x, hx, hxn⟩
        exact ⟨rec, by simp [findByName, hr, hrec]⟩

/-! ## Lookup by name -/

/-- With the identifier unset and the name set, the scan of a chain of pages resolves to
the search of the concatenated records. -/
theorem lookup_name_pageChain (m : Meta) (sess : VpcV1) (d : ResourceData) (Y : String)
    (pages : List SubnetCollection) (fuel : Nat)
    (hclient : m.vpcClient = .ok sess)
    (hid : d.GetOk .identifier = none)
    (hname : d.GetOk .isSubnetName = some (.str Y))
    (hpages : PageChain sess m.GetNext { Start := none } pages)
    (hfuel : pages.length ≤ fuel) :
    lookup m fuel d =
      match findByName Y (allRecords pages) with
      | some subnet => (.resolved (some subnet), pageRequests m.GetNext pages)
      | none => (.failed (errNoSubnet Y), pageRequests m.GetNext pages) := by
  have hloop := listLoop_pageChain sess m.GetNext pages fuel "" [] { Start := none }
    (by rw [nextOptions_empty]; exact hpages) hfuel
  rw [nextOptions_empty] at hloop
  simp only [lookup, hclient, hid, hname, hloop, List.nil_append, pageRequests]

/-- A resolved record and a base controller give a successful call. -/
theorem subnetGetByNameOrID_resolved (m : Meta) (fuel : Nat) (d : ResourceData)
    (subnet : Subnet) (reqs : List Request) (controller : String)
    (hlookup : lookup m fuel d = (.resolved (some subnet), reqs))
    (hctl : m.GetBaseController = .ok controller) :
    subnetGetByNameOrID m fuel d =
      ⟨.success (setResourceFields (setSubnetFields d subnet) subnet controller
          (m.GetGlobalTagsUsingCRN subnet.CRN .isUserTagType)
          (m.GetGlobalTagsUsingCRN subnet.CRN .isAccessTagType)),
        reqs,
        tagsLog (logTags (setSubnetFields d subnet).id)
            (m.GetGlobalTagsUsingCRN subnet.CRN .isUserTagType) ++
          tagsLog (logAccessTags (setSubnetFields d subnet).id)
            (m.GetGlobalTagsUsingCRN subnet.CRN .isAccessTagType)⟩ := by
  simp only [subnetGetByNameOrID, hlookup, mapping, hctl]

theorem setSubnetFields_id (d : ResourceData) (subnet : Subnet) :
    (setSubnetFields d subnet).id = subnet.ID := by
  unfold setSubnetFields
  cases subnet.NetworkACL <;> cases subnet.PublicGateway <;> rfl

theorem setResourceFields_id (d : ResourceData) (subnet : Subnet) (controller : String)
    (tags accesstags : Except Error (List String)) :
    (setResourceFields d subnet controller tags accesstags).id = d.id := by
  unfold setResourceFields
  cases subnet.ResourceGroup <;> rfl

/-- C1, as amended: with no non-empty identifier and the name supplied as Y (set, hence
not empty), on every store served as a chain of pages in which some record is named Y,
the lookup resolves to the first record named Y in page order then in-page order and,
provided the base controller lookup succeeds, the call succeeds with the id and name of
that record; a second store holding the same records in another division into pages
gives the same final state. -/
theorem subnetGetByNameOrID_name_first_match (m : Meta) (sess sess₂ : VpcV1)
    (d : ResourceData) (Y : String) (pages pages₂ : List SubnetCollection)
    (controller : String) (fuel : Nat)
    (hclient : m.vpcClient = .ok sess)
    (hid : d.GetOk .identifier = none)
    (hname : d.GetOk .isSubnetName = some (.str Y))
    (hpages : PageChain sess m.GetNext { Start := none } pages)
    (hfuel : pages.length ≤ fuel)
    (hpages₂ : PageChain sess₂ m.GetNext { Start := none } pages₂)
    (hfuel₂ : pages₂.length ≤ fuel)
    (hsame : allRecords pages₂ = allRecords pages)
    (hmem : ∃ r ∈ allRecords pages, r.Name = Y)
    (hctl : m.GetBaseController = .ok controller) :
    ∃ pre rec post, allRecords pages = pre ++ rec :: post ∧ rec.Name = Y ∧
      (∀ r ∈ pre, r.Name ≠ Y) ∧
      (lookup m fuel d).1 = .resolved (some rec) ∧
      ∃ d', (subnetGetByNameOrID m fuel d).outcome = .success d' ∧ d'.id = rec.ID ∧
        d'.fields .isSubnetName = some (.str Y) ∧
        (subnetGetByNameOrID { m with vpcClient := .ok sess₂ } fuel d).outcome = .success d' := by
  obtain ⟨rec, hrec⟩ := findByName_isSome Y (allRecords pages) hmem
  obtain ⟨pre, post, hsplit, hrecname, hpre⟩ := findByName_eq_some Y _ rec hrec
  have h₁ := lookup_name_pageChain m sess d Y pages fuel hclient hid hname hpages hfuel
  have h₂ := lookup_name_pageChain { m with vpcClient := .ok sess₂ } sess₂ d Y pages₂ fuel
    rfl hid hname hpages₂ hfuel₂
  rw [hrec] at h₁
  rw [hsame, hrec] at h₂
  refine ⟨pre, rec, post, hsplit, hrecname, hpre, by rw [h₁], ?_⟩
  rw [subnetGetByNameOrID_resolved m fuel d rec _ controller h₁ hctl,
    subnetGetByNameOrID_resolved _ fuel d rec _ controller h₂ hctl]
  refine ⟨_, rfl, ?_, ?_, rfl⟩
  · rw [setResourceFields_id, setSubnetFields_id]
  · rw [← hrecname]
    unfold setResourceFields setSubnetFields
    cases rec.ResourceGroup <;> cases rec.NetworkACL <;> cases rec.PublicGateway <;>
      simp [ResourceData.Set, ResourceData.SetId]

theorem sample_pageChain : PageChain sampleSess sampleGetNext { Start := none } [page1, page2] := by
  refine ⟨rfl, ?_, rfl, rfl⟩
  decide

theorem sample_pageChain_onePage :
    PageChain sampleSessOnePage sampleGetNext { Start := none } [pageAll] :=
  ⟨rfl, rfl⟩

/-- C1 as amended, on the sample store served in two pages and in one. -/
theorem subnetGetByNameOrID_name_first_match_witness :
    ∃ pre rec post, allRecords [page1, page2] = pre ++ rec :: post ∧ rec.Name = "web" ∧
      (∀ r ∈ pre, r.Name ≠ "web") ∧
      (lookup sampleMeta 2 (byName "web")).1 = .resolved (some rec) ∧
      ∃ d', (subnetGetByNameOrID sampleMeta 2 (byName "web")).outcome = .success d' ∧
        d'.id = rec.ID ∧ d'.fields .isSubnetName = some (.str "web") ∧
        (subnetGetByNameOrID { sampleMeta with vpcClient := .ok sampleSessOnePage } 2
          (byName "web")).outcome = .success d' :=
  subnetGetByNameOrID_name_first_match sampleMeta sampleSess sampleSessOnePage (byName "web")
    "web" [page1, page2] [pageAll] "https://cloud.ibm.com" 2 rfl rfl rfl
    sample_pageChain (by decide) sample_pageChain_onePage (by decide) rfl
    ⟨subnetWeb, by simp [allRecords, page1, page2], rfl⟩ rfl

/-- C1 as stated fails: on the sample store, whose first page holds a subnet named `web`,
the lookup by the name `web` resolves, the base controller lookup fails and the call
returns that error instead of succeeding. -/
theorem subnetGetByNameOrID_name_controller_error :
    PageChain sampleSess sampleMetaNoController.GetNext { Start := none } [page1, page2] ∧
      (∃ r ∈ allRecords [page1, page2], r.Name = "web") ∧
      sampleMetaNoController.vpcClient = .ok sampleSess ∧
      (byName "web").GetOk .identifier = none ∧
      (byName "web").GetOk .isSubnetName = some (.str "web") ∧
      (lookup sampleMetaNoController 2 (byName "web")).1 = .resolved (some subnetWeb) ∧
      (subnetGetByNameOrID sampleMetaNoController 2 (byName "web")).outcome =
        .failure "user details unavailable" (setSubnetFields (byName "web") subnetWeb) ∧
      ∀ d', (subnetGetByNameOrID sampleMetaNoController 2 (byName "web")).outcome ≠
        .success d' := by
  refine ⟨sample_pageChain, ⟨subnetWeb, by simp [allRecords, page1, page2], rfl⟩,
    rfl, rfl, rfl, rfl, rfl, ?_⟩
  intro d' h
  have h' : Outcome.failure "user details unavailable"
      (setSubnetFields (byName "web") subnetWeb) = Outcome.success d' := h
  cases h'

/-! ## Lookup by identifier -/

/-- With the identifier set, the lookup is the single point fetch. -/
theorem lookup_identifier (m : Meta) (sess : VpcV1) (d : ResourceData) (X : String)
    (fuel : Nat)
    (hclient : m.vpcClient = .ok sess)
    (hX : d.GetOk .identifier = some (.str X)) :
    lookup m fuel d =
      match sess.GetSubnet X with
      | .error (err, response) => (.failed (errGettingSubnet X err response), [.GetSubnet X])
      | .ok subnetinfo => (.resolved subnetinfo, [.GetSubnet X]) := by
  simp only [lookup, hclient, hX]

/-- C2, as amended: with the identifier set to a non-empty X whose point fetch succeeds
with the record of id X, and provided the base controller lookup succeeds, the call
succeeds, the id of the final state is X, and the only request sent to the VPC service
is one point fetch of X. -/
theorem subnetGetByNameOrID_identifier (m : Meta) (sess : VpcV1) (d : ResourceData)
    (X : String) (rec : Subnet) (controller : String) (fuel : Nat)
    (hclient : m.vpcClient = .ok sess)
    (hX : d.GetOk .identifier = some (.str X))
    (hfetch : sess.GetSubnet X = .ok (some rec))
    (hrec : rec.ID = X)
    (hctl : m.GetBaseController = .ok controller) :
    ∃ d', (subnetGetByNameOrID m fuel d).outcome = .success d' ∧ d'.id = X ∧
      (subnetGetByNameOrID m fuel d).requests = [.GetSubnet X] := by
  have h := lookup_identifier m sess d X fuel hclient hX
  rw [hfetch] at h
  rw [subnetGetByNameOrID_resolved m fuel d rec _ controller h hctl]
  exact ⟨_, rfl, by rw [setResourceFields_id, setSubnetFields_id, hrec], rfl⟩

/-- C2 as amended, on the sample store: the identifier of `subnetWeb`, with no fuel at
all. -/
theorem subnetGetByNameOrID_identifier_witness :
    ∃ d', (subnetGetByNameOrID sampleMeta 0 (byIdentifier "0717-a1")).outcome = .success d' ∧
      d'.id = "0717-a1" ∧
      (subnetGetByNameOrID sampleMeta 0 (byIdentifier "0717-a1")).requests =
        [.GetSubnet "0717-a1"] :=
  subnetGetByNameOrID_identifier sampleMeta sampleSess (byIdentifier "0717-a1") "0717-a1"
    subnetWeb "https://cloud.ibm.com" 0 rfl rfl rfl rfl rfl

/-- C2 as stated fails: on the sample store the point fetch of the identifier of
`subnetWeb` succeeds with that record, the base controller lookup fails and the call
returns that error, after the id has been set, instead of succeeding. -/
theorem subnetGetByNameOrID_identifier_controller_error :
    sampleMetaNoController.vpcClient = .ok sampleSess ∧
      (byIdentifier "0717-a1").GetOk .identifier = some (.str "0717-a1") ∧
      (byIdentifier "0717-a1").GetOk .isSubnetName = none ∧
      sampleSess.GetSubnet "0717-a1" = .ok (some subnetWeb) ∧
      subnetWeb.ID = "0717-a1" ∧
      subnetGetByNameOrID sampleMetaNoController 0 (byIdentifier "0717-a1") =
        ⟨.failure "user details unavailable"
            (setSubnetFields (byIdentifier "0717-a1") subnetWeb),
          [.GetSubnet "0717-a1"], []⟩ ∧
      ∀ d', (subnetGetByNameOrID sampleMetaNoController 0 (byIdentifier "0717-a1")).outcome ≠
        .success d' := by
  refine ⟨rfl, rfl, rfl, rfl, rfl, rfl, ?_⟩
  intro d' h
  have h' : Outcome.failure "user details unavailable"
      (setSubnetFields (byIdentifier "0717-a1") subnetWeb) = Outcome.success d' := h
  cases h'

/-- C6: with the identifier set to a non-empty X whose point fetch fails, the call fails
with the message built from X, the cause and the transport response, all three embedded
in it; the state is untouched and the only request sent is the point fetch, whatever the
name field holds. -/
theorem subnetGetByNameOrID_identifier_fetch_error (m : Meta) (sess : VpcV1)
    (d : ResourceData) (X : String) (err : Error) (response : Response) (fuel : Nat)
    (hclient : m.vpcClient = .ok sess)
    (hX : d.GetOk .identifier = some (.str X))
    (hfetch : sess.GetSubnet X = .error (err, response)) :
    subnetGetByNameOrID m fuel d =
        ⟨.failure (errGettingSubnet X err response) d, [.GetSubnet X], []⟩ ∧
      X.data <:+: (errGettingSubnet X err response).data ∧
      err.data <:+: (errGettingSubnet X err response).data ∧
      response.data <:+: (errGettingSubnet X err response).data := by
  have h := lookup_identifier m sess d X fuel hclient hX
  rw [hfetch] at h
  refine ⟨by simp only [subnetGetByNameOrID, h], ?_, ?_, ?_⟩
  · exact ⟨"[ERROR] Error Getting Subnet (".data, ("): " ++ err ++ "\n" ++ response).data,
      by simp [errGettingSubnet, String.data_append]⟩
  · exact ⟨("[ERROR] Error Getting Subnet (" ++ X ++ "): ").data, ("\n" ++ response).data,
      by simp [errGettingSubnet, String.data_append]⟩
  · exact ⟨("[ERROR] Error Getting Subnet (" ++ X ++ "): " ++ err ++ "\n").data, [],
      by simp [errGettingSubnet, String.data_append]⟩

/-- C6 on the sample store: an identifier the store does not hold, with the name of an
existing subnet set as well. -/
theorem subnetGetByNameOrID_identifier_fetch_error_witness :
    subnetGetByNameOrID sampleMeta 5 ((byIdentifier "0717-zz").Set .isSubnetName (some (.str "web"))) =
        ⟨.failure (errGettingSubnet "0717-zz" "Subnet not found" "404 Not Found")
          ((byIdentifier "0717-zz").Set .isSubnetName (some (.str "web"))),
          [.GetSubnet "0717-zz"], []⟩ ∧
      "0717-zz".data <:+: (errGettingSubnet "0717-zz" "Subnet not found" "404 Not Found").data ∧
      "Subnet not found".data <:+:
        (errGettingSubnet "0717-zz" "Subnet not found" "404 Not Found").data ∧
      "404 Not Found".data <:+:
        (errGettingSubnet "0717-zz" "Subnet not found" "404 Not Found").data :=
  subnetGetByNameOrID_identifier_fetch_error sampleMeta sampleSess
    ((byIdentifier "0717-zz").Set .isSubnetName (some (.str "web"))) "0717-zz"
    "Subnet not found" "404 Not Found" 5 rfl rfl rfl

/-! ## Name not found -/

/-- C4: with the identifier unset and the name supplied as Y (set, hence not empty), on
every store served as a chain of pages in which no record is named Y, the call fails
with the not-found message built from Y, which embeds Y; the state is untouched and
every page has been requested before. -/
theorem subnetGetByNameOrID_name_not_found (m : Meta) (sess : VpcV1) (d : ResourceData)
    (Y : String) (pages : List SubnetCollection) (fuel : Nat)
    (hclient : m.vpcClient = .ok sess)
    (hid : d.GetOk .identifier = none)
    (hname : d.GetOk .isSubnetName = some (.str Y))
    (hpages : PageChain sess m.GetNext { Start := none } pages)
    (hfuel : pages.length ≤ fuel)
    (hno : ∀ r ∈ allRecords pages, r.Name ≠ Y) :
    subnetGetByNameOrID m fuel d =
        ⟨.failure (errNoSubnet Y) d, pageRequests m.GetNext pages, []⟩ ∧
      (pageRequests m.GetNext pages).length = pages.length ∧
      Y.data <:+: (errNoSubnet Y).data := by
  have h := lookup_name_pageChain m sess d Y pages fuel hclient hid hname hpages hfuel
  rw [findByName_eq_none Y _ hno] at h
  refine ⟨by simp only [subnetGetByNameOrID, h], requestsFrom_length _ _ _, ?_⟩
  exact ⟨"[ERROR] No subnet found with name (".data, ")".data,
    by simp [errNoSubnet, String.data_append]⟩

/-- C4 on the sample store: no subnet is named `mail`. -/
theorem subnetGetByNameOrID_name_not_found_witness :
    subnetGetByNameOrID sampleMeta 2 (byName "mail") =
        ⟨.failure (errNoSubnet "mail") (byName "mail"),
          pageRequests sampleGetNext [page1, page2], []⟩ ∧
      (pageRequests sampleGetNext [page1, page2]).length = [page1, page2].length ∧
      "mail".data <:+: (errNoSubnet "mail").data :=
  subnetGetByNameOrID_name_not_found sampleMeta sampleSess (byName "mail") "mail"
    [page1, page2] 2 rfl rfl rfl sample_pageChain (by decide) (by decide)

/-! ## The list requests of the scan -/

theorem requestsFrom_head (GetNext : Option String → String) (options : ListSubnetsOptions)
    (page : SubnetCollection) (rest : List SubnetCollection) :
    (requestsFrom GetNext options (page :: rest)).head? = some (.ListSubnets options) := rfl

theorem requestsFrom_succ (GetNext : Option String → String) :
    ∀ (pages : List SubnetCollection) (options : ListSubnetsOptions) (i : Nat)
      (page : SubnetCollection), pages[i]? = some page → i + 1 < pages.length →
      (requestsFrom GetNext options pages)[i + 1]? =
        some (.ListSubnets { Start := some (GetNext page.Next) })
  | [], _, _, _, h, _ => by simp at h
  | [_], _, i, _, _, hlt => by simp at hlt
  | first :: second :: rest, options, 0, page, h, _ => by
    simp only [List.getElem?_cons_zero, Option.some.injEq] at h
    subst h
    simp [requestsFrom]
  | first :: second :: rest, options, i + 1, page, h, hlt => by
    have := requestsFrom_succ GetNext (second :: rest)
      { Start := some (GetNext first.Next) } i page (by simpa using h)
      (by simp only [List.length_cons] at hlt ⊢; omega)
    simpa [requestsFrom] using this

theorem pageChain_ne_nil (sess : VpcV1) (GetNext : Option String → String)
    (options : ListSubnetsOptions) (pages : List SubnetCollection)
    (h : PageChain sess GetNext options pages) : pages ≠ [] := by
  rintro rfl
  exact h

/-- C8: in the scan by name of a store served as a chain of n pages, the requests sent to
the VPC service are n list requests: the first carries no cursor and request i + 1
carries the cursor parsed from the next link of page i. -/
theorem subnetGetByNameOrID_list_requests (m : Meta) (sess : VpcV1) (d : ResourceData)
    (Y : String) (pages : List SubnetCollection) (fuel : Nat)
    (hclient : m.vpcClient = .ok sess)
    (hid : d.GetOk .identifier = none)
    (hname : d.GetOk .isSubnetName = some (.str Y))
    (hpages : PageChain sess m.GetNext { Start := none } pages)
    (hfuel : pages.length ≤ fuel) :
    (subnetGetByNameOrID m fuel d).requests.length = pages.length ∧
      (subnetGetByNameOrID m fuel d).requests.head? = some (.ListSubnets { Start := none }) ∧
      (∀ (i : Nat) (page : SubnetCollection), pages[i]? = some page → i + 1 < pages.length →
        (subnetGetByNameOrID m fuel d).requests[i + 1]? =
          some (.ListSubnets { Start := some (m.GetNext page.Next) })) ∧
      (∀ req ∈ (subnetGetByNameOrID m fuel d).requests, ∃ options, req = .ListSubnets options) := by
  have h := lookup_name_pageChain m sess d Y pages fuel hclient hid hname hpages hfuel
  have hreq : (subnetGetByNameOrID m fuel d).requests = pageRequests m.GetNext pages := by
    cases hfind : findByName Y (allRecords pages) with
    | none => rw [hfind] at h; simp only [subnetGetByNameOrID, h]
    | some rec => rw [hfind] at h; simp only [subnetGetByNameOrID, h]
  rw [hreq]
  refine ⟨requestsFrom_length _ _ _, ?_, ?_, ?_⟩
  · cases pages with
    | nil => exact absurd rfl (pageChain_ne_nil _ _ _ _ hpages)
    | cons page rest => rfl
  · intro i page hi hlt
    exact requestsFrom_succ m.GetNext pages _ i page hi hlt
  · intro req hmem
    have : ∀ (ps : List SubnetCollection) (options : ListSubnetsOptions),
        req ∈ requestsFrom m.GetNext options ps → ∃ options, req = .ListSubnets options := by
      intro ps
      induction ps with
      | nil => intro options hm; simp [requestsFrom] at hm
      | cons p ps ih =>
        intro options hm
        simp only [requestsFrom, List.mem_cons] at hm
        rcases hm with rfl | hm
        · exact ⟨_, rfl⟩
        · exact ih _ hm
    exact this pages _ hmem

/-- C8 on the sample store: served in two pages, two list requests, the second with the
cursor `p2` parsed from the next link of the first page; served on a single page, exactly
one list request. -/
theorem subnetGetByNameOrID_list_requests_witness :
    (subnetGetByNameOrID sampleMeta 2 (byName "web")).requests.length = 2 ∧
      (subnetGetByNameOrID sampleMeta 2 (byName "web")).requests.head? =
        some (.ListSubnets { Start := none }) ∧
      (subnetGetByNameOrID sampleMeta 2 (byName "web")).requests[1]? =
        some (.ListSubnets { Start := some "p2" }) ∧
      (subnetGetByNameOrID { sampleMeta with vpcClient := .ok sampleSessOnePage } 1
        (byName "web")).requests.length = 1 :=
  have h₂ := subnetGetByNameOrID_list_requests sampleMeta sampleSess (byName "web") "web"
    [page1, page2] 2 rfl rfl rfl sample_pageChain (by decide)
  have h₁ := subnetGetByNameOrID_list_requests
    { sampleMeta with vpcClient := .ok sampleSessOnePage } sampleSessOnePage (byName "web")
    "web" [pageAll] 1 rfl rfl rfl sample_pageChain_onePage (by decide)
  ⟨h₂.1, h₂.2.1, h₂.2.2.1 0 page1 rfl (by decide), h₁.1⟩

/-! ## A failed page request -/

/-- With the identifier unset and the name set, a scan along a chain of pages that ends
in a failed request fails with the message built from the cause. -/
theorem lookup_name_failChain (m : Meta) (sess : VpcV1) (d : ResourceData) (Y : String)
    (pages : List SubnetCollection) (cause : Error × Response) (fuel : Nat)
    (hclient : m.vpcClient = .ok sess)
    (hid : d.GetOk .identifier = none)
    (hname : d.GetOk .isSubnetName = some (.str Y))
    (hpages : FailChain sess m.GetNext { Start := none } pages cause)
    (hfuel : pages.length < fuel) :
    lookup m fuel d =
      (.failed (errFetchingList cause.1 cause.2),
        failRequests m.GetNext { Start := none } pages) := by
  have hloop := listLoop_failChain sess m.GetNext cause pages fuel "" [] { Start := none }
    (by rw [nextOptions_empty]; exact hpages) hfuel
  rw [nextOptions_empty] at hloop
  simp only [lookup, hclient, hid, hname, hloop]

/-- C5, as amended: when the list request after some successfully fetched pages fails,
the call sends no further request and fails, with the state untouched and whatever the
fetched pages hold, with the message built from the cause and the transport response,
both embedded in it. -/
theorem subnetGetByNameOrID_page_error (m : Meta) (sess : VpcV1) (d : ResourceData)
    (Y : String) (pages : List SubnetCollection) (err : Error) (response : Response)
    (fuel : Nat)
    (hclient : m.vpcClient = .ok sess)
    (hid : d.GetOk .identifier = none)
    (hname : d.GetOk .isSubnetName = some (.str Y))
    (hpages : FailChain sess m.GetNext { Start := none } pages (err, response))
    (hfuel : pages.length < fuel) :
    subnetGetByNameOrID m fuel d =
        ⟨.failure (errFetchingList err response) d,
          failRequests m.GetNext { Start := none } pages, []⟩ ∧
      (failRequests m.GetNext { Start := none } pages).length = pages.length + 1 ∧
      err.data <:+: (errFetchingList err response).data ∧
      response.data <:+: (errFetchingList err response).data := by
  have h := lookup_name_failChain m sess d Y pages (err, response) fuel hclient hid hname
    hpages hfuel
  refine ⟨by simp only [subnetGetByNameOrID, h], failRequests_length _ _ _, ?_, ?_⟩
  · exact ⟨"[ERROR] Error Fetching subnets List ".data, ("\n" ++ response).data,
      by simp [errFetchingList, String.data_append]⟩
  · exact ⟨("[ERROR] Error Fetching subnets List " ++ err ++ "\n").data, [],
      by simp [errFetchingList, String.data_append]⟩

theorem sample_failChain :
    FailChain sampleSessBroken sampleGetNext { Start := none } [page1]
      ("timeout", "503 Service Unavailable") := by
  refine ⟨rfl, ?_, rfl⟩
  decide

/-- C5 as amended, on a store whose first page holds a subnet named `web` and whose
second page request fails. -/
theorem subnetGetByNameOrID_page_error_witness :
    subnetGetByNameOrID sampleMetaBroken 5 (byName "web") =
        ⟨.failure (errFetchingList "timeout" "503 Service Unavailable") (byName "web"),
          failRequests sampleGetNext { Start := none } [page1], []⟩ ∧
      (failRequests sampleGetNext { Start := none } [page1]).length = [page1].length + 1 ∧
      "timeout".data <:+: (errFetchingList "timeout" "503 Service Unavailable").data ∧
      "503 Service Unavailable".data <:+:
        (errFetchingList "timeout" "503 Service Unavailable").data :=
  subnetGetByNameOrID_page_error sampleMetaBroken sampleSessBroken (byName "web") "web"
    [page1] "timeout" "503 Service Unavailable" 5 rfl rfl rfl sample_failChain (by decide)

/-- C5 as stated fails: on the same store the message of the lookup error does not embed
the searched name `web`. -/
theorem subnetGetByNameOrID_page_error_omits_name :
    ∃ msg d', (subnetGetByNameOrID sampleMetaBroken 5 (byName "web")).outcome =
        .failure msg d' ∧
      msg = "[ERROR] Error Fetching subnets List timeout\n503 Service Unavailable" ∧
      ¬ "web".data <:+: msg.data := by
  refine ⟨_, _, rfl, by decide, ?_⟩
  intro h
  have hw : 'w' ∈ (errFetchingList "timeout" "503 Service Unavailable").data :=
    h.subset (by decide)
  revert hw
  decide

/-! ## Absent references -/

/-- After a resolved lookup the call ends in the mapping phase: with the fields of lines
215 to 232 written when the base controller fails, with all fields written otherwise. -/
theorem subnetGetByNameOrID_mapping (m : Meta) (fuel : Nat) (d : ResourceData)
    (subnet : Subnet) (reqs : List Request)
    (hlookup : lookup m fuel d = (.resolved (some subnet), reqs)) :
    (subnetGetByNameOrID m fuel d).outcome =
      match m.GetBaseController with
      | .error err => .failure err (setSubnetFields d subnet)
      | .ok controller =>
        .success (setResourceFields (setSubnetFields d subnet) subnet controller
          (m.GetGlobalTagsUsingCRN subnet.CRN .isUserTagType)
          (m.GetGlobalTagsUsingCRN subnet.CRN .isAccessTagType)) := by
  simp only [subnetGetByNameOrID, hlookup, mapping]
  cases m.GetBaseController <;> rfl

theorem setSubnetFields_publicGateway_none (d : ResourceData) (subnet : Subnet)
    (h : subnet.PublicGateway = none) :
    (setSubnetFields d subnet).fields .isSubnetPublicGateway = none := by
  unfold setSubnetFields
  rw [h]
  cases subnet.NetworkACL <;> simp [ResourceData.Set, ResourceData.SetId]

theorem setSubnetFields_networkACL_none (d : ResourceData) (subnet : Subnet)
    (h : subnet.NetworkACL = none) :
    (setSubnetFields d subnet).fields .isSubnetNetworkACL = d.fields .isSubnetNetworkACL := by
  unfold setSubnetFields
  rw [h]
  cases subnet.PublicGateway <;> simp [ResourceData.Set, ResourceData.SetId]

theorem setSubnetFields_resourceGroup (d : ResourceData) (subnet : Subnet) :
    (setSubnetFields d subnet).fields .isSubnetResourceGroup = d.fields .isSubnetResourceGroup ∧
      (setSubnetFields d subnet).fields .ResourceGroupName = d.fields .ResourceGroupName := by
  unfold setSubnetFields
  cases subnet.NetworkACL <;> cases subnet.PublicGateway <;>
    simp [ResourceData.Set, ResourceData.SetId]

/-- The fields written after the tag fetches leave the three reference fields of lines
220 to 227 alone, and the resource group fields too when the record has no group. -/
theorem setResourceFields_frame (d : ResourceData) (subnet : Subnet) (controller : String)
    (tags accesstags : Except Error (List String)) :
    (setResourceFields d subnet controller tags accesstags).fields .isSubnetPublicGateway =
        d.fields .isSubnetPublicGateway ∧
      (setResourceFields d subnet controller tags accesstags).fields .isSubnetNetworkACL =
        d.fields .isSubnetNetworkACL ∧
      (subnet.ResourceGroup = none →
        (setResourceFields d subnet controller tags accesstags).fields .isSubnetResourceGroup =
            d.fields .isSubnetResourceGroup ∧
          (setResourceFields d subnet controller tags accesstags).fields .ResourceGroupName =
            d.fields .ResourceGroupName) := by
  unfold setResourceFields
  cases subnet.ResourceGroup <;> simp [ResourceData.Set]

/-- What the mapping phase does with an absent reference: once a record is resolved, the
state at the end of the call has the public gateway field unset when the record has no
public gateway; when the record has no network ACL the network ACL field keeps the value
of the prior state, and when it has no resource group the two resource group fields keep
theirs. -/
theorem subnetGetByNameOrID_absent_references (m : Meta) (fuel : Nat) (d d' : ResourceData)
    (rec : Subnet) (reqs : List Request)
    (hlookup : lookup m fuel d = (.resolved (some rec), reqs))
    (hout : (subnetGetByNameOrID m fuel d).outcome.state = some d') :
    (rec.PublicGateway = none → d'.fields .isSubnetPublicGateway = none) ∧
      (rec.NetworkACL = none →
        d'.fields .isSubnetNetworkACL = d.fields .isSubnetNetworkACL) ∧
      (rec.ResourceGroup = none →
        d'.fields .isSubnetResourceGroup = d.fields .isSubnetResourceGroup ∧
          d'.fields .ResourceGroupName = d.fields .ResourceGroupName) := by
  rw [subnetGetByNameOrID_mapping m fuel d rec reqs hlookup] at hout
  cases hctl : m.GetBaseController with
  | error err =>
    rw [hctl] at hout
    simp only [Outcome.state, Option.some.injEq] at hout
    subst hout
    exact ⟨setSubnetFields_publicGateway_none d rec, setSubnetFields_networkACL_none d rec,
      fun _ => setSubnetFields_resourceGroup d rec⟩
  | ok controller =>
    rw [hctl] at hout
    simp only [Outcome.state, Option.some.injEq] at hout
    subst hout
    obtain ⟨hpg, hacl, hrg⟩ := setResourceFields_frame (setSubnetFields d rec) rec controller
      (m.GetGlobalTagsUsingCRN rec.CRN .isUserTagType)
      (m.GetGlobalTagsUsingCRN rec.CRN .isAccessTagType)
    refine ⟨fun h => ?_, fun h => ?_, fun h => ?_⟩
    · rw [hpg, setSubnetFields_publicGateway_none d rec h]
    · rw [hacl, setSubnetFields_networkACL_none d rec h]
    · obtain ⟨h₁, h₂⟩ := hrg h
      rw [h₁, h₂]
      exact setSubnetFields_resourceGroup d rec

theorem readInput_byIdentifier (id : String) : ReadInput (byIdentifier id) := by
  intro k hk
  cases k <;> first | rfl | simp [Key.Optional] at hk

/-- C3: once a record is resolved, the state at the end of the call has the public gateway
field unset when the record has no public gateway, whatever the prior state; and from
every state the host hands to the read function, in which only the `Optional` keys can
be set, it has the network ACL field unset when the record has no network ACL and the
two resource group fields unset when the record has no resource group. -/
theorem subnetGetByNameOrID_absent_references_unset (m : Meta) (fuel : Nat)
    (d d' : ResourceData) (rec : Subnet) (reqs : List Request)
    (hlookup : lookup m fuel d = (.resolved (some rec), reqs))
    (hout : (subnetGetByNameOrID m fuel d).outcome.state = some d') :
    (rec.PublicGateway = none → d'.fields .isSubnetPublicGateway = none) ∧
      (ReadInput d → rec.NetworkACL = none → d'.fields .isSubnetNetworkACL = none) ∧
      (ReadInput d → rec.ResourceGroup = none →
        d'.fields .isSubnetResourceGroup = none ∧ d'.fields .ResourceGroupName = none) := by
  obtain ⟨hpg, hacl, hrg⟩ :=
    subnetGetByNameOrID_absent_references m fuel d d' rec reqs hlookup hout
  refine ⟨hpg, fun hfresh h => ?_, fun hfresh h => ?_⟩
  · rw [hacl h]
    exact hfresh .isSubnetNetworkACL rfl
  · obtain ⟨h₁, h₂⟩ := hrg h
    rw [h₁, h₂]
    exact ⟨hfresh .isSubnetResourceGroup rfl, hfresh .ResourceGroupName rfl⟩

/-- C3 on the sample store: the lookup by identifier of `subnetBare`, which has no network
ACL, no public gateway and no resource group, ends with the four fields unset. -/
theorem subnetGetByNameOrID_absent_references_unset_witness :
    (subnetGetByNameOrID sampleMeta 0 (byIdentifier "0717-d4")).outcome.state =
        some (setResourceFields (setSubnetFields (byIdentifier "0717-d4") subnetBare)
          subnetBare "https://cloud.ibm.com" (.ok ["env:dev"]) (.ok ["project:x"])) ∧
      (setResourceFields (setSubnetFields (byIdentifier "0717-d4") subnetBare) subnetBare
        "https://cloud.ibm.com" (.ok ["env:dev"]) (.ok ["project:x"])).fields
          .isSubnetPublicGateway = none ∧
      (setResourceFields (setSubnetFields (byIdentifier "0717-d4") subnetBare) subnetBare
        "https://cloud.ibm.com" (.ok ["env:dev"]) (.ok ["project:x"])).fields
          .isSubnetNetworkACL = none ∧
      (setResourceFields (setSubnetFields (byIdentifier "0717-d4") subnetBare) subnetBare
        "https://cloud.ibm.com" (.ok ["env:dev"]) (.ok ["project:x"])).fields
          .isSubnetResourceGroup = none ∧
      (setResourceFields (setSubnetFields (byIdentifier "0717-d4") subnetBare) subnetBare
        "https://cloud.ibm.com" (.ok ["env:dev"]) (.ok ["project:x"])).fields
          .ResourceGroupName = none :=
  have h := subnetGetByNameOrID_absent_references_unset sampleMeta 0
    (byIdentifier "0717-d4") _ subnetBare [.GetSubnet "0717-d4"] rfl rfl
  ⟨rfl, h.1 rfl, h.2.1 (readInput_byIdentifier "0717-d4") rfl,
    (h.2.2 (readInput_byIdentifier "0717-d4") rfl).1,
    (h.2.2 (readInput_byIdentifier "0717-d4") rfl).2⟩

/-! ## Tag fetches -/

/-- The lookup phase does not call the tag helper. -/
theorem lookup_tags_irrelevant (m : Meta)
    (g : String → TagType → Except Error (List String)) (fuel : Nat) (d : ResourceData) :
    lookup { m with GetGlobalTagsUsingCRN := g } fuel d = lookup m fuel d := rfl

/-- The two tag fields hold what the two tag fetches returned. -/
theorem setResourceFields_tags (d : ResourceData) (subnet : Subnet) (controller : String)
    (tags accesstags : Except Error (List String)) :
    (setResourceFields d subnet controller tags accesstags).fields .isSubnetTags =
        some (tagsValue tags) ∧
      (setResourceFields d subnet controller tags accesstags).fields .isSubnetAccessTags =
        some (tagsValue accesstags) := by
  unfold setResourceFields
  cases subnet.ResourceGroup <;> simp [ResourceData.Set]

/-- Every field but the two tag fields is written without regard to the tag fetches. -/
theorem setResourceFields_other (d : ResourceData) (subnet : Subnet) (controller : String)
    (tags accesstags tags₂ accesstags₂ : Except Error (List String)) (k : Key)
    (hk : k ≠ .isSubnetTags) (hk₂ : k ≠ .isSubnetAccessTags) :
    (setResourceFields d subnet controller tags accesstags).fields k =
      (setResourceFields d subnet controller tags₂ accesstags₂).fields k := by
  unfold setResourceFields
  cases subnet.ResourceGroup <;> simp [ResourceData.Set, hk, hk₂]

/-- C7: after a successful lookup, with a base controller, the call succeeds whatever the
tag fetches return; a failed plain tag fetch leaves the field `tags` an empty set, a
failed access tag fetch leaves `access_tags` an empty set, and the id and every other
field are those of the call in which the tag helper is replaced by any other one (so by
one that succeeds); a tag field whose fetch returns the same in both calls is the same
too. -/
theorem subnetGetByNameOrID_tag_failures (m : Meta)
    (g : String → TagType → Except Error (List String)) (fuel : Nat) (d : ResourceData)
    (rec : Subnet) (reqs : List Request) (controller : String)
    (hlookup : lookup m fuel d = (.resolved (some rec), reqs))
    (hctl : m.GetBaseController = .ok controller) :
    ∃ d₁ d₂, (subnetGetByNameOrID m fuel d).outcome = .success d₁ ∧
      (subnetGetByNameOrID { m with GetGlobalTagsUsingCRN := g } fuel d).outcome = .success d₂ ∧
      d₁.id = d₂.id ∧
      (∀ err, m.GetGlobalTagsUsingCRN rec.CRN .isUserTagType = .error err →
        d₁.fields .isSubnetTags = some (.set [])) ∧
      (∀ err, m.GetGlobalTagsUsingCRN rec.CRN .isAccessTagType = .error err →
        d₁.fields .isSubnetAccessTags = some (.set [])) ∧
      (∀ k, k ≠ .isSubnetTags → k ≠ .isSubnetAccessTags → d₁.fields k = d₂.fields k) ∧
      (m.GetGlobalTagsUsingCRN rec.CRN .isUserTagType = g rec.CRN .isUserTagType →
        d₁.fields .isSubnetTags = d₂.fields .isSubnetTags) ∧
      (m.GetGlobalTagsUsingCRN rec.CRN .isAccessTagType = g rec.CRN .isAccessTagType →
        d₁.fields .isSubnetAccessTags = d₂.fields .isSubnetAccessTags) := by
  have hlookup₂ : lookup { m with GetGlobalTagsUsingCRN := g } fuel d =
      (.resolved (some rec), reqs) := by
    rw [lookup_tags_irrelevant]; exact hlookup
  rw [subnetGetByNameOrID_resolved m fuel d rec reqs controller hlookup hctl,
    subnetGetByNameOrID_resolved _ fuel d rec reqs controller hlookup₂ hctl]
  refine ⟨_, _, rfl, rfl, ?_, ?_, ?_, ?_, ?_, ?_⟩
  · rw [setResourceFields_id, setResourceFields_id]
  · intro err herr
    rw [(setResourceFields_tags _ _ _ _ _).1, herr]
    rfl
  · intro err herr
    rw [(setResourceFields_tags _ _ _ _ _).2, herr]
    rfl
  · intro k hk hk₂
    exact setResourceFields_other _ _ _ _ _ _ _ k hk hk₂
  · intro h
    rw [(setResourceFields_tags _ _ _ _ _).1, (setResourceFields_tags _ _ _ _ _).1]
    exact congrArg (fun t => some (tagsValue t)) h
  · intro h
    rw [(setResourceFields_tags _ _ _ _ _).2, (setResourceFields_tags _ _ _ _ _).2]
    exact congrArg (fun t => some (tagsValue t)) h

/-- C7 on the sample store with both tag fetches failing, against the tag helper of the
sample store, which succeeds. -/
theorem subnetGetByNameOrID_tag_failures_witness :
    ∃ d₁ d₂, (subnetGetByNameOrID sampleMetaNoTags 2 (byName "web")).outcome = .success d₁ ∧
      (subnetGetByNameOrID
        { sampleMetaNoTags with GetGlobalTagsUsingCRN := sampleMeta.GetGlobalTagsUsingCRN } 2
        (byName "web")).outcome = .success d₂ ∧
      d₁.id = d₂.id ∧
      (∀ err, sampleMetaNoTags.GetGlobalTagsUsingCRN subnetWeb.CRN .isUserTagType = .error err →
        d₁.fields .isSubnetTags = some (.set [])) ∧
      (∀ err, sampleMetaNoTags.GetGlobalTagsUsingCRN subnetWeb.CRN .isAccessTagType =
          .error err →
        d₁.fields .isSubnetAccessTags = some (.set [])) ∧
      (∀ k, k ≠ .isSubnetTags → k ≠ .isSubnetAccessTags → d₁.fields k = d₂.fields k) ∧
      (sampleMetaNoTags.GetGlobalTagsUsingCRN subnetWeb.CRN .isUserTagType =
          sampleMeta.GetGlobalTagsUsingCRN subnetWeb.CRN .isUserTagType →
        d₁.fields .isSubnetTags = d₂.fields .isSubnetTags) ∧
      (sampleMetaNoTags.GetGlobalTagsUsingCRN subnetWeb.CRN .isAccessTagType =
          sampleMeta.GetGlobalTagsUsingCRN subnetWeb.CRN .isAccessTagType →
        d₁.fields .isSubnetAccessTags = d₂.fields .isSubnetAccessTags) :=
  subnetGetByNameOrID_tag_failures sampleMetaNoTags sampleMeta.GetGlobalTagsUsingCRN 2
    (byName "web") subnetWeb (pageRequests sampleGetNext [page1, page2])
    "https://cloud.ibm.com" rfl rfl

/-! ## The pointer `subnet` at the start of the mapping phase -/

/-- When the lookup phase hands over a `nil` pointer, either neither key is set or the
identifier is set and its point fetch returned a `nil` record without an error. -/
theorem lookup_resolved_none (m : Meta) (fuel : Nat) (d : ResourceData) (reqs : List Request)
    (h : lookup m fuel d = (.resolved none, reqs)) :
    (d.GetOk .identifier = none ∧ d.GetOk .isSubnetName = none) ∨
      ∃ sess X, m.vpcClient = .ok sess ∧ d.GetOk .identifier = some (.str X) ∧
        sess.GetSubnet X = .ok none := by
  unfold lookup at h
  split at h
  · simp at h
  · rename_i sess hclient
    split at h
    · rename_i X hX
      split at h
      · simp at h
      · rename_i subnetinfo hfetch
        simp only [Prod.mk.injEq, Lookup.resolved.injEq] at h
        exact Or.inr ⟨sess, X, hclient, hX, by rw [hfetch, h.1]⟩
    · simp at h
    · rename_i hid
      split at h
      · split at h
        · simp at h
        · simp at h
        · split at h <;> simp at h
      · simp at h
      · rename_i hname
        exact Or.inl ⟨hid, hname⟩

/-- With both keys unset and a client, the lookup phase sends no request and hands over a
`nil` pointer. -/
theorem lookup_no_key (m : Meta) (sess : VpcV1) (fuel : Nat) (d : ResourceData)
    (hclient : m.vpcClient = .ok sess)
    (hid : d.GetOk .identifier = none) (hname : d.GetOk .isSubnetName = none) :
    lookup m fuel d = (.resolved none, []) := by
  simp only [lookup, hclient, hid, hname]

/-- C9, as amended: when at least one of identifier and name is set to a non-zero value,
and provided the point fetch of a set identifier does not return a `nil` record without
an error, the lookup phase never hands a `nil` pointer to the mapping phase and the call
never ends in the dereference of `nil` (with the identifier unset the proviso is void:
the name branch tests the pointer); when both are unset (and a client is built), neither
lookup branch sends a request, the mapping phase starts with a `nil` pointer and the
call ends in its dereference, with the state untouched. -/
theorem subnetGetByNameOrID_nil_subnet (m : Meta) (fuel : Nat) (d : ResourceData) :
    ((d.GetOk .identifier ≠ none ∨ d.GetOk .isSubnetName ≠ none) →
        (∀ sess X, m.vpcClient = .ok sess → d.GetOk .identifier = some (.str X) →
          sess.GetSubnet X ≠ .ok none) →
        (∀ subnet reqs, lookup m fuel d = (.resolved subnet, reqs) → subnet ≠ none) ∧
          ∀ d', (subnetGetByNameOrID m fuel d).outcome ≠ .nilDeref d') ∧
      (d.GetOk .identifier = none → d.GetOk .isSubnetName = none →
        ∀ sess, m.vpcClient = .ok sess →
          lookup m fuel d = (.resolved none, []) ∧
            subnetGetByNameOrID m fuel d = ⟨.nilDeref d, [], []⟩) := by
  constructor
  · intro hkey hfetch
    have hsome : ∀ subnet reqs, lookup m fuel d = (.resolved subnet, reqs) → subnet ≠ none := by
      rintro subnet reqs h rfl
      rcases lookup_resolved_none m fuel d reqs h with ⟨hid, hname⟩ | ⟨sess, X, hc, hX, hnil⟩
      · rcases hkey with hk | hk
        · exact hk hid
        · exact hk hname
      · exact hfetch sess X hc hX hnil
    refine ⟨hsome, ?_⟩
    intro d' hout
    unfold subnetGetByNameOrID at hout
    split at hout
    · simp at hout
    · simp at hout
    · simp at hout
    · rename_i reqs hl
      exact hsome none reqs hl rfl
    · rename_i subnet reqs hl
      simp only [mapping] at hout
      cases hctl : m.GetBaseController <;> rw [hctl] at hout <;> simp at hout
  · intro hid hname sess hclient
    have h := lookup_no_key m sess fuel d hclient hid hname
    exact ⟨h, by simp only [subnetGetByNameOrID, h]⟩

/-- C9 as amended, on the sample store: the lookup by the identifier of `subnetWeb`, whose
point fetch returns the record, hands over that record and does not end in the
dereference of `nil`; the lookup with no key does. -/
theorem subnetGetByNameOrID_nil_subnet_witness :
    (some subnetWeb ≠ none ∧
        ∀ d', (subnetGetByNameOrID sampleMeta 0 (byIdentifier "0717-a1")).outcome ≠
          .nilDeref d') ∧
      (lookup sampleMeta 2 emptyData = (.resolved none, []) ∧
        subnetGetByNameOrID sampleMeta 2 emptyData = ⟨.nilDeref emptyData, [], []⟩) :=
  have h := (subnetGetByNameOrID_nil_subnet sampleMeta 0 (byIdentifier "0717-a1")).1
    (Or.inl (by decide))
    (by
      intro sess X hs hX hnil
      have hs' : Except.ok sampleSess = (Except.ok sess : Except Error VpcV1) := hs
      have hX' : some (Value.str "0717-a1") = some (Value.str X) := hX
      cases hs'
      cases hX'
      have hnil' : (Except.ok (some subnetWeb) : Except (Error × Response) (Option Subnet)) =
          Except.ok none := hnil
      cases hnil')
  ⟨⟨h.1 (some subnetWeb) [.GetSubnet "0717-a1"] rfl, h.2⟩,
    (subnetGetByNameOrID_nil_subnet sampleMeta 2 emptyData).2 rfl rfl sampleSess rfl⟩

/-- C9 as stated fails: with the identifier set to a non-empty value and a client whose
point fetch returns a `nil` record without an error, the lookup phase hands the `nil`
pointer to the mapping phase and the call ends in its dereference. -/
theorem subnetGetByNameOrID_nil_subnet_from_fetch :
    (byIdentifier "0717-a1").GetOk .identifier = some (.str "0717-a1") ∧
      sampleMetaNil.vpcClient = .ok sampleSessNil ∧
      sampleSessNil.GetSubnet "0717-a1" = .ok none ∧
      lookup sampleMetaNil 0 (byIdentifier "0717-a1") =
        (.resolved none, [.GetSubnet "0717-a1"]) ∧
      subnetGetByNameOrID sampleMetaNil 0 (byIdentifier "0717-a1") =
        ⟨.nilDeref (byIdentifier "0717-a1"), [.GetSubnet "0717-a1"], []⟩ :=
  ⟨rfl, rfl, rfl, rfl, rfl⟩

/-! ## The state at a failure -/

/-- The loop fails only with the message built from the cause of a failed list request. -/
theorem listLoop_failed (sess : VpcV1) (GetNext : Option String → String) :
    ∀ (fuel : Nat) (start : String) (allrecs : List Subnet) (options : ListSubnetsOptions)
      (err : Error) (reqs : List Request),
      listLoop sess GetNext fuel start allrecs options = (.failed err, reqs) →
      ∃ request cause response, sess.ListSubnets request = .error (cause, response) ∧
        err = errFetchingList cause response := by
  intro fuel
  induction fuel with
  | zero => intro start allrecs options err reqs h; simp [listLoop] at h
  | succ fuel ih =>
    intro start allrecs options err reqs h
    unfold listLoop at h
    simp only at h
    split at h
    · rename_i cause response hreq
      simp only [Prod.mk.injEq, Scan.failed.injEq] at h
      exact ⟨_, cause, response, hreq, h.1.symm⟩
    · split at h
      · simp at h
      · simp only [Prod.mk.injEq] at h
        exact ih _ _ _ err _ (Prod.ext h.1 rfl)

/-- The four ways in which the lookup phase fails. -/
theorem lookup_failed_cause (m : Meta) (fuel : Nat) (d : ResourceData) (err : Error)
    (reqs : List Request) (h : lookup m fuel d = (.failed err, reqs)) :
    m.vpcClient = .error err ∨
      (∃ sess X cause response, m.vpcClient = .ok sess ∧
        d.GetOk .identifier = some (.str X) ∧
        sess.GetSubnet X = .error (cause, response) ∧
        err = errGettingSubnet X cause response) ∨
      (∃ sess request cause response, m.vpcClient = .ok sess ∧
        d.GetOk .identifier = none ∧
        sess.ListSubnets request = .error (cause, response) ∧
        err = errFetchingList cause response) ∨
      (∃ Y, d.GetOk .identifier = none ∧ d.GetOk .isSubnetName = some (.str Y) ∧
        err = errNoSubnet Y) := by
  unfold lookup at h
  split at h
  · rename_i e hclient
    simp only [Prod.mk.injEq, Lookup.failed.injEq] at h
    exact Or.inl (by rw [hclient, h.1])
  · rename_i sess hclient
    split at h
    · rename_i X hX
      split at h
      · rename_i cause response hfetch
        simp only [Prod.mk.injEq, Lookup.failed.injEq] at h
        exact Or.inr (Or.inl ⟨sess, X, cause, response, hclient, hX, hfetch, h.1.symm⟩)
      · simp at h
    · simp at h
    · rename_i hid
      split at h
      · rename_i Y hY
        split at h
        · rename_i e rs hloop
          simp only [Prod.mk.injEq, Lookup.failed.injEq] at h
          obtain ⟨request, cause, response, hreq, he⟩ :=
            listLoop_failed sess m.GetNext fuel "" [] { Start := none } e rs hloop
          exact Or.inr (Or.inr (Or.inl
            ⟨sess, request, cause, response, hclient, hid, hreq, by rw [← h.1, he]⟩))
        · simp at h
        · split at h
          · simp at h
          · simp only [Prod.mk.injEq, Lookup.failed.injEq] at h
            exact Or.inr (Or.inr (Or.inr ⟨Y, hid, hY, h.1.symm⟩))
      · simp at h
      · simp at h

/-- The fields written before the base controller is looked up. -/
theorem setSubnetFields_written (d : ResourceData) (subnet : Subnet) :
    (setSubnetFields d subnet).id = subnet.ID ∧
      (setSubnetFields d subnet).fields .isSubnetName = some (.str subnet.Name) ∧
      (setSubnetFields d subnet).fields .isSubnetIpv4CidrBlock =
        some (.str subnet.Ipv4CIDRBlock) ∧
      (setSubnetFields d subnet).fields .isSubnetAvailableIpv4AddressCount =
        some (.int subnet.AvailableIpv4AddressCount) ∧
      (setSubnetFields d subnet).fields .isSubnetTotalIpv4AddressCount =
        some (.int subnet.TotalIpv4AddressCount) ∧
      (setSubnetFields d subnet).fields .isSubnetStatus = some (.str subnet.Status) ∧
      (setSubnetFields d subnet).fields .isSubnetZone = some (.str subnet.Zone.Name) ∧
      (setSubnetFields d subnet).fields .isSubnetVPC = some (.str subnet.VPC.ID) ∧
      (setSubnetFields d subnet).fields .isSubnetVPCName = some (.str subnet.VPC.Name) := by
  unfold setSubnetFields
  cases subnet.NetworkACL <;> cases subnet.PublicGateway <;>
    simp [ResourceData.Set, ResourceData.SetId]

/-- C10: a failure of the lookup phase, which is a client construction error, a point
fetch error, a page request error or a name without match, makes the call fail with that
error and the state it was given; when the call fails, either the lookup phase failed
and the state is the one given, or a record was resolved, the error is that of the base
controller lookup, and the state is the given one with id, name, CIDR block, both
address counts, status, zone, VPC and VPC name written from the record; and whenever a
record is resolved and the base controller lookup fails, the call does return that error
with exactly those fields written, after the requests of the lookup and without a log
line. -/
theorem subnetGetByNameOrID_failure_state (m : Meta) (fuel : Nat) (d : ResourceData) :
    (∀ err, (lookup m fuel d).1 = .failed err →
        (subnetGetByNameOrID m fuel d).outcome = .failure err d ∧
          (m.vpcClient = .error err ∨
            (∃ sess X cause response, m.vpcClient = .ok sess ∧
              d.GetOk .identifier = some (.str X) ∧
              sess.GetSubnet X = .error (cause, response) ∧
              err = errGettingSubnet X cause response) ∨
            (∃ sess request cause response, m.vpcClient = .ok sess ∧
              d.GetOk .identifier = none ∧
              sess.ListSubnets request = .error (cause, response) ∧
              err = errFetchingList cause response) ∨
            (∃ Y, d.GetOk .identifier = none ∧ d.GetOk .isSubnetName = some (.str Y) ∧
              err = errNoSubnet Y))) ∧
      (∀ err d', (subnetGetByNameOrID m fuel d).outcome = .failure err d' →
        ((lookup m fuel d).1 = .failed err ∧ d' = d) ∨
          (∃ rec, (lookup m fuel d).1 = .resolved (some rec) ∧
            m.GetBaseController = .error err ∧
            d' = setSubnetFields d rec ∧
            d'.id = rec.ID ∧
            d'.fields .isSubnetName = some (.str rec.Name) ∧
            d'.fields .isSubnetIpv4CidrBlock = some (.str rec.Ipv4CIDRBlock) ∧
            d'.fields .isSubnetAvailableIpv4AddressCount =
              some (.int rec.AvailableIpv4AddressCount) ∧
            d'.fields .isSubnetTotalIpv4AddressCount = some (.int rec.TotalIpv4AddressCount) ∧
            d'.fields .isSubnetStatus = some (.str rec.Status) ∧
            d'.fields .isSubnetZone = some (.str rec.Zone.Name) ∧
            d'.fields .isSubnetVPC = some (.str rec.VPC.ID) ∧
            d'.fields .isSubnetVPCName = some (.str rec.VPC.Name))) ∧
      (∀ rec reqs err, lookup m fuel d = (.resolved (some rec), reqs) →
        m.GetBaseController = .error err →
        subnetGetByNameOrID m fuel d = ⟨.failure err (setSubnetFields d rec), reqs, []⟩ ∧
          (setSubnetFields d rec).id = rec.ID ∧
          (setSubnetFields d rec).fields .isSubnetName = some (.str rec.Name) ∧
          (setSubnetFields d rec).fields .isSubnetIpv4CidrBlock =
            some (.str rec.Ipv4CIDRBlock) ∧
          (setSubnetFields d rec).fields .isSubnetAvailableIpv4AddressCount =
            some (.int rec.AvailableIpv4AddressCount) ∧
          (setSubnetFields d rec).fields .isSubnetTotalIpv4AddressCount =
            some (.int rec.TotalIpv4AddressCount) ∧
          (setSubnetFields d rec).fields .isSubnetStatus = some (.str rec.Status) ∧
          (setSubnetFields d rec).fields .isSubnetZone = some (.str rec.Zone.Name) ∧
          (setSubnetFields d rec).fields .isSubnetVPC = some (.str rec.VPC.ID) ∧
          (setSubnetFields d rec).fields .isSubnetVPCName = some (.str rec.VPC.Name)) := by
  refine ⟨?_, ?_, ?_⟩
  · intro err h
    have hl : lookup m fuel d = (.failed err, (lookup m fuel d).2) := Prod.ext h rfl
    refine ⟨?_, lookup_failed_cause m fuel d err _ hl⟩
    unfold subnetGetByNameOrID
    rw [hl]
  · intro err d' hout
    unfold subnetGetByNameOrID at hout
    split at hout
    · rename_i e reqs hl
      simp only [Outcome.failure.injEq] at hout
      exact Or.inl ⟨by rw [hl, hout.1], hout.2.symm⟩
    · simp at hout
    · simp at hout
    · simp at hout
    · rename_i rec reqs hl
      simp only [mapping] at hout
      cases hctl : m.GetBaseController with
      | ok controller => rw [hctl] at hout; simp at hout
      | error e =>
        rw [hctl] at hout
        simp only [Outcome.failure.injEq] at hout
        obtain ⟨he, hd⟩ := hout
        subst he hd
        exact Or.inr ⟨rec, by rw [hl], rfl, rfl, setSubnetFields_written d rec⟩
  · intro rec reqs err hl hctl
    refine ⟨?_, setSubnetFields_written d rec⟩
    simp only [subnetGetByNameOrID, hl, mapping, hctl]

/-- C10 on the sample store: without a client the lookup by identifier fails with the
state it was given; with a client and without a base controller the call returns the
error of the base controller with the fields of `subnetWeb` written, after the point
fetch. -/
theorem subnetGetByNameOrID_failure_state_witness :
    (subnetGetByNameOrID sampleMetaNoClient 0 (byIdentifier "0717-a1")).outcome =
        .failure "no VPC session" (byIdentifier "0717-a1") ∧
      subnetGetByNameOrID sampleMetaNoController 0 (byIdentifier "0717-a1") =
        ⟨.failure "user details unavailable"
            (setSubnetFields (byIdentifier "0717-a1") subnetWeb),
          [.GetSubnet "0717-a1"], []⟩ ∧
      (setSubnetFields (byIdentifier "0717-a1") subnetWeb).id = "0717-a1" ∧
      (setSubnetFields (byIdentifier "0717-a1") subnetWeb).fields .isSubnetName =
        some (.str "web") ∧
      (setSubnetFields (byIdentifier "0717-a1") subnetWeb).fields .isSubnetIpv4CidrBlock =
        some (.str "10.240.0.0/24") ∧
      (setSubnetFields (byIdentifier "0717-a1") subnetWeb).fields
        .isSubnetAvailableIpv4AddressCount = some (.int 251) ∧
      (setSubnetFields (byIdentifier "0717-a1") subnetWeb).fields
        .isSubnetTotalIpv4AddressCount = some (.int 256) ∧
      (setSubnetFields (byIdentifier "0717-a1") subnetWeb).fields .isSubnetStatus =
        some (.str "available") ∧
      (setSubnetFields (byIdentifier "0717-a1") subnetWeb).fields .isSubnetZone =
        some (.str "us-south-1") ∧
      (setSubnetFields (byIdentifier "0717-a1") subnetWeb).fields .isSubnetVPC =
        some (.str "vpc-1") ∧
      (setSubnetFields (byIdentifier "0717-a1") subnetWeb).fields .isSubnetVPCName =
        some (.str "main") :=
  ⟨((subnetGetByNameOrID_failure_state sampleMetaNoClient 0 (byIdentifier "0717-a1")).1
      "no VPC session" rfl).1,
    (subnetGetByNameOrID_failure_state sampleMetaNoController 0 (byIdentifier "0717-a1")).2.2
      subnetWeb [.GetSubnet "0717-a1"] "user details unavailable" rfl rfl⟩

end IBMISSubnet
